import Mathlib

/-!
Verification of the event-propagation core of the logistics platform:
the topic router, the event-envelope codec, the publisher/consumer
pipeline, and the choreography handlers of the inventory, tracking and
notification services.  Each definition is a shallow embedding of the
corresponding Python function; strings, integers, lists and dictionaries
are modelled directly, and the transactional acknowledgment scope of the
message library is modelled as an explicit outcome of the exception flow.
-/

/-! ## Topic router (`shared/messaging.py`, `MessageConsumer._matches_pattern`) -/

/-- Auxiliary recursion for `splitDot`: walks the character list,
accumulating the current segment (in reverse), emitting a segment at each
separator.  Mirrors Python `str.split(".")`, which yields `[""]` on the
empty string and keeps empty segments between consecutive dots. -/
def splitDotAux : List Char → List Char → List String
  | [], acc => [String.mk acc.reverse]
  | c :: rest, acc =>
      if c = '.' then String.mk acc.reverse :: splitDotAux rest []
      else splitDotAux rest (c :: acc)

/-- Python `s.split(".")`. -/
def splitDot (s : String) : List String :=
  splitDotAux s.data []

/-- `MessageConsumer._matches_pattern(routing_key, pattern)` from
`shared/messaging.py`: `"#"` matches everything; otherwise the key and the
pattern are split on `"."`, must have the same number of segments, and each
pattern segment must be `"*"` or equal the key segment.  The Python loop
`for k, p in zip(...): if p != "*" and p != k: return False` is the
`List.all` below. -/
def matches_pattern (routing_key pattern : String) : Bool :=
  if pattern == "#" then true
  else
    let key_parts := splitDot routing_key
    let pattern_parts := splitDot pattern
    if key_parts.length != pattern_parts.length then false
    else (key_parts.zip pattern_parts).all fun kp => kp.2 == "*" || kp.2 == kp.1

/-- The matching relation exactly as the specification words it: the
pattern is the catch-all token, or the two segment lists have equal length
and every non-wildcard pattern segment equals the corresponding key
segment literally. -/
def matchesSpec (routing_key pattern : String) : Prop :=
  pattern = "#" ∨
    ((splitDot routing_key).length = (splitDot pattern).length ∧
      ∀ kp ∈ (splitDot routing_key).zip (splitDot pattern), kp.2 ≠ "*" → kp.2 = kp.1)

/-- Unconditional closed form of `matches_pattern` with the early returns
of the Python loop folded into boolean connectives. -/
theorem matches_pattern_eq (k p : String) :
    matches_pattern k p =
      (p == "#" || ((splitDot k).length == (splitDot p).length &&
        ((splitDot k).zip (splitDot p)).all fun kp => kp.2 == "*" || kp.2 == kp.1)) := by
  unfold matches_pattern
  by_cases hp : p = "#" <;> by_cases hl : (splitDot k).length = (splitDot p).length <;>
    simp [hp, hl]

/-- C1: `matches(k,p)` is true iff `p` is the catch-all `"#"`, or `k` and
`p` split on `"."` into equally many segments and every non-`"*"` segment
of `p` equals the corresponding segment of `k`; and the key
`"shipment.updated"` matches `"shipment.*"` and `"#"` but not
`"order.*"`. -/
theorem matches_pattern_correct :
    (∀ k p, matches_pattern k p = true ↔ matchesSpec k p) ∧
    matches_pattern "shipment.updated" "order.*" = false ∧
    matches_pattern "shipment.updated" "shipment.*" = true ∧
    matches_pattern "shipment.updated" "#" = true := by
  refine ⟨fun k p => ?_, by decide, by decide, by decide⟩
  rw [matches_pattern_eq]
  simp only [matchesSpec, Bool.or_eq_true, Bool.and_eq_true, beq_iff_eq, List.all_eq_true]
  refine or_congr Iff.rfl (and_congr Iff.rfl ?_)
  refine forall_congr' fun kp => forall_congr' fun hkp => ?_
  exact or_iff_not_imp_left

/-! ## Event envelope codec (`MessagePublisher.publish` / `MessageConsumer._process_message`)

JSON values and Python dictionaries are modelled at the parsed level:
`json.dumps`/`json.loads` round-tripping of JSON-representable values is
the standard library's guarantee, so the wire format is represented by the
parsed dictionary itself.  A dictionary is an association list with
distinct keys in insertion order; `{**d, k: v}` replaces the value in
place when `k` is present and appends otherwise, exactly as Python
does. -/

inductive JValue where
  | null : JValue
  | bool (b : Bool) : JValue
  | num (n : Int) : JValue
  | str (s : String) : JValue
  | arr (elems : List JValue) : JValue
  | obj (fields : List (String × JValue)) : JValue

abbrev PyDict := List (String × JValue)

/-- Python `d.get(k)` (returning `None` when absent). -/
def dictLookup (d : PyDict) (k : String) : Option JValue :=
  (d.find? fun kv => kv.1 == k).map fun kv => kv.2

/-- The keys of a dictionary, in insertion order. -/
def dictKeys (d : PyDict) : List String :=
  d.map fun kv => kv.1

/-- Python `{**d, k: v}`: replace in place when `k` is a key of `d`,
append otherwise. -/
def dictSet (d : PyDict) (k : String) (v : JValue) : PyDict :=
  if d.any fun kv => kv.1 == k then
    d.map fun kv => if kv.1 == k then (k, v) else kv
  else d ++ [(k, v)]

/-- The envelope enrichment performed by `MessagePublisher.publish` (and
identically by `OrderEventPublisher._publish` and
`TrackingEventPublisher._publish`):
`{**message, "_timestamp": ..., "_routing_key": routing_key}`. -/
def encodeEnvelope (routing_key : String) (message : PyDict) (timestamp : String) : PyDict :=
  dictSet (dictSet message "_timestamp" (JValue.str timestamp)) "_routing_key"
    (JValue.str routing_key)

/-- `MessageConsumer._process_message` extracts
`body.get("_routing_key", "unknown")` from the decoded body. -/
def decodeRoutingKeyValue (body : PyDict) : JValue :=
  (dictLookup body "_routing_key").getD (JValue.str "unknown")

/-- The payload view `MessageConsumer._process_message` passes to the
matched handler: `await handler(body)` hands over the decoded body
unchanged — the metadata fields are NOT removed. -/
def handlerPayloadView (body : PyDict) : PyDict :=
  body

/-- Keys of an appended dictionary. -/
theorem dictKeys_append (a b : PyDict) : dictKeys (a ++ b) = dictKeys a ++ dictKeys b :=
  List.map_append _ a b

/-- When `k` is not a key of `d`, `{**d, k: v}` appends. -/
theorem dictSet_not_mem (d : PyDict) (k : String) (v : JValue) (h : k ∉ dictKeys d) :
    dictSet d k v = d ++ [(k, v)] := by
  unfold dictSet
  have : (d.any fun kv => kv.1 == k) = false := by
    simp only [List.any_eq_false]
    intro kv hkv
    simp only [beq_iff_eq]
    intro hk
    exact h (hk ▸ List.mem_map_of_mem (fun kv => kv.1) hkv)
  simp [this]

/-- Lookup skips a prefix that does not hold the key. -/
theorem dictLookup_append_right (d l : PyDict) (k : String) (h : k ∉ dictKeys d) :
    dictLookup (d ++ l) k = dictLookup l k := by
  induction d with
  | nil => rfl
  | cons kv d ih =>
      have hk : ¬kv.1 = k := by
        intro hk
        exact h (hk ▸ List.mem_map_of_mem (fun kv => kv.1) (List.mem_cons_self kv d))
      have h' : k ∉ dictKeys d := by
        intro hmem
        exact h (List.mem_cons_of_mem _ hmem)
      simp only [dictLookup, List.cons_append, List.find?]
      have : (kv.1 == k) = false := by simpa using hk
      rw [this]
      exact ih h'

/-- A sample payload without the reserved metadata keys. -/
def samplePayload : PyDict :=
  [("order_number", JValue.str "ORD-1")]

/-- C2 counterexample: the payload view passed to the handler is not the
original payload — `_process_message` hands the decoded body to the
handler without removing `_timestamp` and `_routing_key`. -/
theorem envelope_roundtrip_counterexample :
    handlerPayloadView
        (encodeEnvelope "order.created" samplePayload "2024-01-01T00:00:00") ≠
      samplePayload := by
  intro h
  have h3 : (handlerPayloadView
      (encodeEnvelope "order.created" samplePayload "2024-01-01T00:00:00")).length = 3 := rfl
  rw [h] at h3
  simp [samplePayload] at h3

/-- C2 (amended): for every payload free of the reserved keys, decoding
the encoded envelope recovers the routing key exactly, and the payload
view given to the handler is the original payload with the two metadata
fields appended (they are not removed). -/
theorem envelope_roundtrip_amended (k t : String) (p : PyDict)
    (hts : "_timestamp" ∉ dictKeys p) (hrk : "_routing_key" ∉ dictKeys p) :
    decodeRoutingKeyValue (encodeEnvelope k p t) = JValue.str k ∧
    handlerPayloadView (encodeEnvelope k p t) =
      p ++ [("_timestamp", JValue.str t), ("_routing_key", JValue.str k)] := by
  have h1 : dictSet p "_timestamp" (JValue.str t) = p ++ [("_timestamp", JValue.str t)] :=
    dictSet_not_mem p _ _ hts
  have hrk' : "_routing_key" ∉ dictKeys (p ++ [("_timestamp", JValue.str t)]) := by
    rw [dictKeys_append]
    intro hmem
    rcases List.mem_append.mp hmem with h | h
    · exact hrk h
    · simp [dictKeys] at h
  have h2 : encodeEnvelope k p t =
      p ++ [("_timestamp", JValue.str t), ("_routing_key", JValue.str k)] := by
    unfold encodeEnvelope
    rw [h1, dictSet_not_mem _ _ _ hrk', List.append_assoc]
    rfl
  refine ⟨?_, by simpa [handlerPayloadView] using h2⟩
  unfold decodeRoutingKeyValue
  rw [h2, dictLookup_append_right p _ _ (by
    intro hmem
    exact hrk hmem)]
  rfl

/-- Witness: the amended round-trip theorem applied to a concrete payload. -/
theorem envelope_roundtrip_amended_witness :
    decodeRoutingKeyValue (encodeEnvelope "order.created" samplePayload "T0") =
      JValue.str "order.created" ∧
    handlerPayloadView (encodeEnvelope "order.created" samplePayload "T0") =
      samplePayload ++
        [("_timestamp", JValue.str "T0"), ("_routing_key", JValue.str "order.created")] :=
  envelope_roundtrip_amended "order.created" "T0" samplePayload (by decide) (by decide)

/-! ## Publishers (`shared/messaging.py` `MessagePublisher.publish`,
`order-service/app/messaging/publisher.py` `OrderEventPublisher._publish`)

`self.exchange` is `None` until `connect` completes; it is modelled as an
`Option` holding the exchange name.  Raising is modelled with `Except`. -/

inductive PublishError where
  | notConnected : PublishError
deriving DecidableEq

/-- `MessagePublisher.publish`: `if not self.exchange: raise
RuntimeError("Publisher not connected. Call connect() first.")`; otherwise
the enriched envelope is published to the bound exchange (the broker call
on a bound exchange succeeds and the enriched wire dictionary is the
observable result). -/
def MessagePublisher.publish (exchange : Option String) (routing_key : String)
    (message : PyDict) (timestamp : String) : Except PublishError PyDict :=
  match exchange with
  | none => Except.error PublishError.notConnected
  | some _ => Except.ok (encodeEnvelope routing_key message timestamp)

/-- `OrderEventPublisher._publish`: `if not self.exchange:
logger.warning("publisher_not_connected", ...); return` — it logs and
returns `None` silently instead of raising; when connected it publishes
the same enriched envelope. -/
def OrderEventPublisher.publish (exchange : Option String) (routing_key : String)
    (data : PyDict) (timestamp : String) : Except PublishError (Option PyDict) :=
  match exchange with
  | none => Except.ok none
  | some _ => Except.ok (some (encodeEnvelope routing_key data timestamp))

/-- C8 counterexample: the order-service publisher called before `connect`
returns normally (with nothing published) instead of raising
`NotConnected` — so it is not true that every publisher instance fails
fast before `connect`. -/
theorem order_publisher_counterexample :
    OrderEventPublisher.publish none "order.created" [] "T0" = Except.ok none :=
  rfl

/-- C8 (amended): the shared `MessagePublisher.publish` raises its
not-connected error before `connect` and does not raise on a connected
publisher with a bound exchange; the order-service
`OrderEventPublisher._publish`, by contrast, logs and returns silently
when not connected, and also publishes without raising when connected. -/
theorem publisher_connection_guard :
    (∀ rk m t, MessagePublisher.publish none rk m t =
        Except.error PublishError.notConnected) ∧
    (∀ ex rk m t, MessagePublisher.publish (some ex) rk m t =
        Except.ok (encodeEnvelope rk m t)) ∧
    (∀ rk d t, OrderEventPublisher.publish none rk d t = Except.ok none) ∧
    (∀ ex rk d t, OrderEventPublisher.publish (some ex) rk d t =
        Except.ok (some (encodeEnvelope rk d t))) :=
  ⟨fun _ _ _ => rfl, fun _ _ _ _ => rfl, fun _ _ _ => rfl, fun _ _ _ _ => rfl⟩

/-! ## Consumer processing pipeline (`MessageConsumer._process_message`,
`NotificationConsumer._process_message`)

The body of each `_process_message` runs inside `async with
message.process()`.  That aio_pika scope acknowledges the message when the
block exits normally and rejects it when an exception escapes the block;
`processScope` models exactly that.  Python exceptions are modelled by
`PyExc` and fallible steps by `Except`. -/

inductive PyExc where
  | jsonDecodeError : PyExc
  | handlerError : PyExc
  | typeError : PyExc
deriving DecidableEq

inductive Ack where
  | acked : Ack
  | rejected : Ack
deriving DecidableEq

inductive LogEvent where
  | messageProcessed : LogEvent
  | processingFailed : LogEvent
  | decodeFailed : LogEvent
  | noHandlerFound : LogEvent
  | unknownEvent : LogEvent
deriving DecidableEq

/-- Observations of one `_process_message` body run: what was logged and
which handler (by its pattern / routing key) was invoked. -/
structure MsgObs where
  logs : List LogEvent
  handlerRun : Option String
deriving DecidableEq

/-- The outcome of one delivery: the acknowledgment decision of the
`message.process()` scope plus the body's observations. -/
structure MsgOutcome where
  ack : Ack
  logs : List LogEvent
  handlerRun : Option String
deriving DecidableEq

/-- aio_pika's `message.process()` context manager: acknowledge when the
block exits normally, reject when an exception escapes it. -/
def processScope (body : Except PyExc MsgObs) : MsgOutcome :=
  match body with
  | Except.ok obs => { ack := Ack.acked, logs := obs.logs, handlerRun := obs.handlerRun }
  | Except.error _ => { ack := Ack.rejected, logs := [], handlerRun := none }

/-- `body.get("_routing_key", "unknown")` as used by the shared consumer.
A non-string stored value would make the subsequent
`routing_key.split(".")` inside `_matches_pattern` raise, modelled as a
`typeError` at extraction. -/
def getRoutingKeyString (body : PyDict) : Except PyExc String :=
  match dictLookup body "_routing_key" with
  | some (JValue.str s) => Except.ok s
  | some _ => Except.error PyExc.typeError
  | none => Except.ok "unknown"

/-- A registered handler's behaviour on this delivery, abstracted to
whether it raises. -/
inductive HandlerBehavior where
  | succeeds : HandlerBehavior
  | raises : HandlerBehavior
deriving DecidableEq

/-- `for pattern, h in self.handlers.items(): if self._matches_pattern(...):
handler = h; break` — first registered pattern that matches wins. -/
def findHandler (routing_key : String) (handlers : List (String × HandlerBehavior)) :
    Option (String × HandlerBehavior) :=
  handlers.find? fun ph => matches_pattern routing_key ph.1

/-- Invoking a handler: raises or returns. -/
def runHandler : HandlerBehavior → Except PyExc Unit
  | HandlerBehavior.succeeds => Except.ok ()
  | HandlerBehavior.raises => Except.error PyExc.handlerError

/-- The `try ... except Exception` body of
`MessageConsumer._process_message`.  Every exception — decode failure or a
handler raise — is caught by the `except Exception` clause and logged, so
this function is total: no exception ever escapes the block. -/
def sharedTryBody (raw : Except PyExc PyDict)
    (handlers : List (String × HandlerBehavior)) : MsgObs :=
  match raw with
  | Except.error _ => { logs := [LogEvent.processingFailed], handlerRun := none }
  | Except.ok body =>
    match getRoutingKeyString body with
    | Except.error _ => { logs := [LogEvent.processingFailed], handlerRun := none }
    | Except.ok rk =>
      match findHandler rk handlers with
      | some ph =>
        match runHandler ph.2 with
        | Except.ok _ => { logs := [LogEvent.messageProcessed], handlerRun := some ph.1 }
        | Except.error _ => { logs := [LogEvent.processingFailed], handlerRun := some ph.1 }
      | none => { logs := [LogEvent.noHandlerFound], handlerRun := none }

/-- `MessageConsumer._process_message`: run the try/except body inside the
`message.process()` scope.  Because the body catches every exception, the
scope always sees a normal exit. -/
def sharedProcessMessage (raw : Except PyExc PyDict)
    (handlers : List (String × HandlerBehavior)) : MsgOutcome :=
  processScope (Except.ok (sharedTryBody raw handlers))

/-- The decoded body of a delivered `order.created` event. -/
def orderCreatedBody : PyDict :=
  [("order_number", JValue.str "ORD-1"), ("_routing_key", JValue.str "order.created")]

/-- C3: when the matched handler raises, the `except Exception` clause
inside the `message.process()` scope swallows the exception, the scope
exits normally and ACKNOWLEDGES the message — it is dropped, not left
unacknowledged for redelivery.  This contradicts the code's own comment
("Message will be requeued due to exception in process() context") and
the specified at-least-once redelivery semantics. -/
theorem handler_exception_message_acked :
    sharedProcessMessage (Except.ok orderCreatedBody)
        [("order.created", HandlerBehavior.raises)] =
      { ack := Ack.acked, logs := [LogEvent.processingFailed],
        handlerRun := some "order.created" } :=
  rfl

/-- `body.get("_routing_key", message.routing_key)` as used by the
notification consumer: fall back to the transport-level routing key when
the field is absent. -/
def notifRoutingKey (body : PyDict) (transport_key : String) : JValue :=
  (dictLookup body "_routing_key").getD (JValue.str transport_key)

/-- The `if routing_key == "order.created": ... elif ...` dispatch chain
of `NotificationConsumer._process_message`; a non-string routing-key value
compares unequal to every literal and falls through to the
unknown-event branch. -/
def notifDispatch : JValue → Option String
  | JValue.str s =>
      if s = "order.created" then some "order.created"
      else if s = "order.status_changed" then some "order.status_changed"
      else if s = "shipment.created" then some "shipment.created"
      else if s = "shipment.updated" then some "shipment.updated"
      else if s = "inventory.low_stock" then some "inventory.low_stock"
      else none
  | _ => none

/-- The `try ... except json.JSONDecodeError ... except Exception` body of
`NotificationConsumer._process_message`: a JSON decode failure is logged
by the first clause, any other exception by the second; both clauses
swallow the exception, so the function is total. -/
def notifTryBody (raw : Except PyExc PyDict) (transport_key : String)
    (handler : String → PyDict → Except PyExc Unit) : MsgObs :=
  match raw with
  | Except.error PyExc.jsonDecodeError => { logs := [LogEvent.decodeFailed], handlerRun := none }
  | Except.error _ => { logs := [LogEvent.processingFailed], handlerRun := none }
  | Except.ok body =>
    match notifDispatch (notifRoutingKey body transport_key) with
    | some key =>
        match handler key body with
        | Except.ok _ => { logs := [LogEvent.messageProcessed], handlerRun := some key }
        | Except.error PyExc.jsonDecodeError =>
            { logs := [LogEvent.decodeFailed], handlerRun := some key }
        | Except.error _ => { logs := [LogEvent.processingFailed], handlerRun := some key }
    | none => { logs := [LogEvent.unknownEvent], handlerRun := none }

/-- `NotificationConsumer._process_message`: the try/except body inside
the `message.process()` scope; every exception is caught, so the scope
always acknowledges. -/
def notifProcessMessage (raw : Except PyExc PyDict) (transport_key : String)
    (handler : String → PyDict → Except PyExc Unit) : MsgOutcome :=
  processScope (Except.ok (notifTryBody raw transport_key handler))

/-- C4: a message whose body is not valid JSON is acknowledged (dropped)
with no handler invoked: the notification consumer's dedicated
`except json.JSONDecodeError` clause logs the decode error, and the
shared consumer's `except Exception` clause logs its processing-failure
error; in both, the `message.process()` scope then exits normally and
acknowledges. -/
theorem decode_failure_dropped :
    (∀ tk handler, notifProcessMessage (Except.error PyExc.jsonDecodeError) tk handler =
        { ack := Ack.acked, logs := [LogEvent.decodeFailed], handlerRun := none }) ∧
    (∀ handlers, sharedProcessMessage (Except.error PyExc.jsonDecodeError) handlers =
        { ack := Ack.acked, logs := [LogEvent.processingFailed], handlerRun := none }) :=
  ⟨fun _ _ => rfl, fun _ => rfl⟩

/-! ## Inventory service
(`inventory-service/app/services/inventory_service.py` and
`inventory-service/app/messaging/consumer.py`)

The relational state is modelled as lists of rows in database order;
`query(...).first()` is `List.find?`, and mutating a fetched row is an
in-place update of the row with that primary key. -/

structure Warehouse where
  id : Nat
  warehouse_code : String
deriving DecidableEq, Repr

structure InventoryItemR where
  id : Nat
  warehouse_id : Nat
  sku : String
  quantity : Int
  reserved_quantity : Int
deriving DecidableEq, Repr

structure InventoryTransactionR where
  inventory_item_id : Nat
  transaction_type : String
  quantity : Int
  order_number : Option String
  notes : String
deriving DecidableEq, Repr

structure InvDB where
  warehouses : List Warehouse
  items : List InventoryItemR
  txns : List InventoryTransactionR
deriving DecidableEq, Repr

/-- Update the row with the given primary key (SQLAlchemy mutates the
fetched row object in place). -/
def updateItemById (items : List InventoryItemR) (item_id : Nat)
    (f : InventoryItemR → InventoryItemR) : List InventoryItemR :=
  items.map fun it => if it.id = item_id then f it else it

/-- The `reserve_inventory` query: first inventory row with the requested
SKU whose `quantity - reserved_quantity >= quantity` is sufficient. -/
def findSufficientItem (items : List InventoryItemR) (sku : String) (required : Int) :
    Option InventoryItemR :=
  items.find? fun it =>
    it.sku == sku && decide (required ≤ it.quantity - it.reserved_quantity)

/-- One requested line item as the consumer hands it over:
`{"sku": item.get("sku"), "quantity": item.get("quantity")}` — either
field may be absent. -/
structure ReqItem where
  sku : Option String
  quantity : Option Int
deriving DecidableEq, Repr

/-- One iteration of the `for item in items` loop of `reserve_inventory`:
skip a falsy SKU (`None` or `""`); search for a sufficient row; on a miss
log a warning and continue; on a hit increment the row's
`reserved_quantity` and append a "reserve" transaction tagged with the
order number. -/
def reserveOne (db : InvDB) (order_number : String) (r : ReqItem) : InvDB :=
  let quantity := r.quantity.getD 0
  match r.sku with
  | none => db
  | some sku =>
    if sku = "" then db
    else
      match findSufficientItem db.items sku quantity with
      | none => db
      | some inventory_item =>
          let txn : InventoryTransactionR :=
            { inventory_item_id := inventory_item.id
              transaction_type := "reserve"
              quantity := quantity
              order_number := some order_number
              notes := "Reserved for order " ++ order_number }
          { db with
            items := updateItemById db.items inventory_item.id (fun x =>
              { x with reserved_quantity := x.reserved_quantity + quantity }),
            txns := db.txns ++ [txn] }

/-- `reserve_inventory(db, order_number, items)`: process every requested
item in order, commit, and return `True` unconditionally. -/
def reserve_inventory (db : InvDB) (order_number : String) (items : List ReqItem) :
    Bool × InvDB :=
  (true, items.foldl (fun acc r => reserveOne acc order_number r) db)

/-- `release_inventory(db, order_number)`: snapshot all "reserve"
transactions tagged with the order number, then for each one decrement
the target row's `reserved_quantity` by the originally reserved amount
and append a "release" transaction; commit and return `True`. -/
def release_inventory (db : InvDB) (order_number : String) : Bool × InvDB :=
  let reservations := db.txns.filter fun t =>
    t.order_number == some order_number && t.transaction_type == "reserve"
  (true, reservations.foldl (fun acc t =>
    let txn : InventoryTransactionR :=
      { inventory_item_id := t.inventory_item_id
        transaction_type := "release"
        quantity := t.quantity
        order_number := some order_number
        notes := "Released from cancelled order " ++ order_number }
    { acc with
      items := updateItemById acc.items t.inventory_item_id (fun x =>
        { x with reserved_quantity := x.reserved_quantity - t.quantity }),
      txns := acc.txns ++ [txn] }) db)

/-- The fields `InventoryEventConsumer.handle_order_cancelled` reads from
the event payload; a missing field is `none` and Python truthiness makes
`""` falsy as well. -/
structure CancelMsg where
  order_number : Option String
  new_status : Option String
deriving DecidableEq, Repr

/-- The order-number guard and release call shared by both branches of
`handle_order_cancelled`: `if not order_number: warning; return` then
`release_inventory(db, order_number)`. -/
def cancelReleasePart (db : InvDB) (order_number : Option String) : InvDB :=
  match order_number with
  | none => db
  | some onum => if onum = "" then db else (release_inventory db onum).2

/-- `InventoryEventConsumer.handle_order_cancelled`: `new_status =
message.get("new_status"); if new_status and new_status != "cancelled":
return` — only a TRUTHY (nonempty) status different from "cancelled"
short-circuits; an absent or empty `new_status` falls through to the
release path. -/
def handle_order_cancelled (db : InvDB) (msg : CancelMsg) : InvDB :=
  match msg.new_status with
  | some s =>
      if s ≠ "" ∧ s ≠ "cancelled" then db
      else cancelReleasePart db msg.order_number
  | none => cancelReleasePart db msg.order_number

/-- `get_warehouse_by_code`: first warehouse row with the given code. -/
def get_warehouse_by_code (db : InvDB) (warehouse_code : String) : Option Warehouse :=
  db.warehouses.find? fun w => w.warehouse_code == warehouse_code

/-- The `adjust_inventory` item query: first row with the given SKU in the
given warehouse. -/
def findItemBySkuWarehouse (items : List InventoryItemR) (sku : String) (warehouse_id : Nat) :
    Option InventoryItemR :=
  items.find? fun it => it.sku == sku && it.warehouse_id == warehouse_id

/-- Python `f"{n:+d}"`: the integer with an explicit sign. -/
def pySignedInt (n : Int) : String :=
  if 0 ≤ n then "+" ++ toString n else toString n

/-- Python `a or b` on an optional string: `None` and `""` are falsy. -/
def pyOrStr (a : Option String) (b : String) : String :=
  match a with
  | some s => if s = "" then b else s
  | none => b

/-- `adjust_inventory(db, sku, warehouse_code, quantity_change, notes)`:
fail (returning `False`, no mutation) when the warehouse or the item does
not exist; otherwise add `quantity_change` to the row's quantity, clamp a
negative result to `0`, and append an "adjust"/"reduce" transaction
recording `abs(quantity_change)`. -/
def adjust_inventory (db : InvDB) (sku : String) (warehouse_code : String)
    (quantity_change : Int) (notes : Option String) : Bool × InvDB :=
  match get_warehouse_by_code db warehouse_code with
  | none => (false, db)
  | some warehouse =>
    match findItemBySkuWarehouse db.items sku warehouse.id with
    | none => (false, db)
    | some inventory_item =>
      let q := inventory_item.quantity + quantity_change
      let newq := if q < 0 then 0 else q
      let txn : InventoryTransactionR :=
        { inventory_item_id := inventory_item.id
          transaction_type := if quantity_change > 0 then "adjust" else "reduce"
          quantity := |quantity_change|
          order_number := none
          notes := pyOrStr notes ("Manual adjustment: " ++ pySignedInt quantity_change) }
      (true, { db with
        items := updateItemById db.items inventory_item.id (fun x =>
          { x with quantity := newq }),
        txns := db.txns ++ [txn] })

/-- Clamping an addition at zero is the max with zero. -/
theorem clamp_eq_max (x : Int) : (if x < 0 then 0 else x) = max x 0 := by
  rcases lt_or_le x 0 with h | h
  · simp [h, max_eq_right h.le]
  · simp [not_lt.mpr h, max_eq_left h]

/-- An inventory state where SKU "B" has `quantity=5, reserved=0`. -/
def dbInsufficient : InvDB :=
  { warehouses := [], items := [⟨1, 1, "B", 5, 0⟩], txns := [] }

/-- C5: `reserve_inventory` processes each item with a nonempty SKU by
searching for a row with `quantity - reserved_quantity` at least the
requested quantity, increments that row's reservation and appends a
"reserve" transaction tagged with the order number when one is found,
skips the item when none is found, and returns `True` unconditionally —
including the spec scenario of requesting 100 of SKU "B" against
`quantity=5, reserved=0`, which reserves nothing yet succeeds. -/
theorem reserve_inventory_correct :
    (∀ db onum items, (reserve_inventory db onum items).1 = true) ∧
    (∀ db onum q, reserveOne db onum ⟨none, q⟩ = db) ∧
    (∀ db onum q, reserveOne db onum ⟨some "", q⟩ = db) ∧
    (∀ db onum s q, s ≠ "" → findSufficientItem db.items s (q.getD 0) = none →
      reserveOne db onum ⟨some s, q⟩ = db) ∧
    (∀ db onum s q it, s ≠ "" → findSufficientItem db.items s (q.getD 0) = some it →
      (reserveOne db onum ⟨some s, q⟩).items =
        updateItemById db.items it.id (fun x =>
          { x with reserved_quantity := x.reserved_quantity + q.getD 0 }) ∧
      (reserveOne db onum ⟨some s, q⟩).txns =
        db.txns ++ [⟨it.id, "reserve", q.getD 0, some onum, "Reserved for order " ++ onum⟩]) ∧
    reserve_inventory dbInsufficient "ORD-2" [⟨some "B", some 100⟩] = (true, dbInsufficient) := by
  refine ⟨fun _ _ _ => rfl, fun _ _ _ => rfl, fun _ _ _ => rfl, ?_, ?_, by decide⟩
  · intro db onum s q hs hfind
    simp only [reserveOne]
    rw [if_neg hs, hfind]
  · intro db onum s q it hs hfind
    simp only [reserveOne]
    rw [if_neg hs, hfind]
    exact ⟨rfl, rfl⟩

/-- An inventory state where SKU "A" has `quantity=10, reserved=0`. -/
def dbAvailable : InvDB :=
  { warehouses := [], items := [⟨1, 1, "A", 10, 0⟩], txns := [] }

/-- Witness: the hypothesis-bearing parts of `reserve_inventory_correct`
at concrete states — an insufficient request is skipped and a sufficient
request of 2 units of SKU "A" increments the reservation and records the
tagged transaction. -/
theorem reserve_inventory_correct_witness :
    reserveOne dbAvailable "ORD-9" ⟨some "B", some 100⟩ = dbAvailable ∧
    (reserveOne dbAvailable "ORD-1" ⟨some "A", some 2⟩).items =
      updateItemById dbAvailable.items 1 (fun x =>
        { x with reserved_quantity := x.reserved_quantity + 2 }) ∧
    (reserveOne dbAvailable "ORD-1" ⟨some "A", some 2⟩).txns =
      dbAvailable.txns ++ [⟨1, "reserve", 2, some "ORD-1", "Reserved for order ORD-1"⟩] := by
  refine ⟨reserve_inventory_correct.2.2.2.1 dbAvailable "ORD-9" "B" (some 100)
    (by decide) (by decide), ?_, ?_⟩
  · exact (reserve_inventory_correct.2.2.2.2.1 dbAvailable "ORD-1" "A" (some 2)
      ⟨1, 1, "A", 10, 0⟩ (by decide) (by decide)).1
  · exact (reserve_inventory_correct.2.2.2.2.1 dbAvailable "ORD-1" "A" (some 2)
      ⟨1, 1, "A", 10, 0⟩ (by decide) (by decide)).2

/-- An inventory state holding one prior reservation of 2 units of SKU
"A" for order "ORD-1" (`reserved=2`). -/
def dbReserved : InvDB :=
  { warehouses := []
    items := [⟨1, 1, "A", 10, 2⟩]
    txns := [⟨1, "reserve", 2, some "ORD-1", "Reserved for order ORD-1"⟩] }

/-- An `order.status_changed` payload whose `new_status` is the empty
string — a value other than `"cancelled"`. -/
def emptyStatusMsg : CancelMsg :=
  { order_number := some "ORD-1", new_status := some "" }

/-- C6 counterexample: an `order.status_changed` event whose `new_status`
is `""` — a value different from `"cancelled"` — is NOT a no-op: the
guard `if new_status and new_status != "cancelled"` lets every falsy
status fall through to the release path, which mutates the state. -/
theorem release_guard_counterexample :
    emptyStatusMsg.new_status = some "" ∧
    (some "" : Option String) ≠ some "cancelled" ∧
    handle_order_cancelled dbReserved emptyStatusMsg ≠ dbReserved := by
  refine ⟨rfl, by decide, by decide⟩

/-- C6 (amended): the handler is a no-op exactly when `new_status` is a
truthy (nonempty) value other than `"cancelled"`, or the order number is
absent or empty; an absent or empty `new_status` is treated like a
cancellation.  On `"cancelled"` it releases every prior "reserve"
transaction tagged with the order number — decrementing each target
row's reservation and appending a "release" transaction — and with zero
matching reservations it returns success with no mutation. -/
theorem release_on_cancel_correct :
    (∀ db onum s, s ≠ "" → s ≠ "cancelled" →
      handle_order_cancelled db { order_number := onum, new_status := some s } = db) ∧
    (∀ db ns, handle_order_cancelled db { order_number := none, new_status := ns } = db) ∧
    (∀ db ns, handle_order_cancelled db { order_number := some "", new_status := ns } = db) ∧
    (∀ db onum, onum ≠ "" →
      handle_order_cancelled db { order_number := some onum, new_status := some "cancelled" } =
        (release_inventory db onum).2) ∧
    (∀ db onum, (db.txns.filter fun t =>
        t.order_number == some onum && t.transaction_type == "reserve") = [] →
      release_inventory db onum = (true, db)) ∧
    handle_order_cancelled dbReserved
        { order_number := some "ORD-1", new_status := some "cancelled" } =
      { dbReserved with
        items := [⟨1, 1, "A", 10, 0⟩],
        txns := dbReserved.txns ++
          [⟨1, "release", 2, some "ORD-1", "Released from cancelled order ORD-1"⟩] } := by
  refine ⟨?_, ?_, ?_, ?_, ?_, by decide⟩
  · intro db onum s hs hc
    simp only [handle_order_cancelled]
    rw [if_pos ⟨hs, hc⟩]
  · intro db ns
    cases ns with
    | none => rfl
    | some s =>
        simp only [handle_order_cancelled]
        split
        · rfl
        · rfl
  · intro db ns
    cases ns with
    | none => rfl
    | some s =>
        simp only [handle_order_cancelled]
        split
        · rfl
        · rfl
  · intro db onum h
    simp only [handle_order_cancelled]
    rw [if_neg (by simp), cancelReleasePart, if_neg h]
  · intro db onum h
    simp only [release_inventory]
    rw [h]
    rfl

/-- Witness: the hypothesis-bearing parts of `release_on_cancel_correct`
at concrete states — a truthy non-"cancelled" status is a no-op, a
cancellation releases via `release_inventory`, and an order with no prior
reservations releases as a successful no-op. -/
theorem release_on_cancel_correct_witness :
    handle_order_cancelled dbReserved
        { order_number := some "ORD-1", new_status := some "shipped" } = dbReserved ∧
    handle_order_cancelled dbReserved
        { order_number := some "ORD-1", new_status := some "cancelled" } =
      (release_inventory dbReserved "ORD-1").2 ∧
    release_inventory dbAvailable "ORD-7" = (true, dbAvailable) := by
  refine ⟨release_on_cancel_correct.1 dbReserved (some "ORD-1") "shipped"
      (by decide) (by decide),
    release_on_cancel_correct.2.2.2.1 dbReserved "ORD-1" (by decide),
    release_on_cancel_correct.2.2.2.2.1 dbAvailable "ORD-7" (by decide)⟩

/-- C10: `adjust_inventory` never drives a stock quantity negative — on an
existing warehouse and item the row's quantity becomes
`max(old + quantity_change, 0)`, the appended transaction records
`abs(quantity_change)`, and when the warehouse or the item does not exist
it returns `False` with no mutation. -/
theorem adjust_inventory_correct :
    (∀ db sku wc qc n, get_warehouse_by_code db wc = none →
      adjust_inventory db sku wc qc n = (false, db)) ∧
    (∀ db sku wc qc n w, get_warehouse_by_code db wc = some w →
      findItemBySkuWarehouse db.items sku w.id = none →
      adjust_inventory db sku wc qc n = (false, db)) ∧
    (∀ db sku wc qc n w it, get_warehouse_by_code db wc = some w →
      findItemBySkuWarehouse db.items sku w.id = some it →
      (adjust_inventory db sku wc qc n).1 = true ∧
      (adjust_inventory db sku wc qc n).2.warehouses = db.warehouses ∧
      (adjust_inventory db sku wc qc n).2.items =
        updateItemById db.items it.id (fun x =>
          { x with quantity := max (it.quantity + qc) 0 }) ∧
      (adjust_inventory db sku wc qc n).2.txns =
        db.txns ++ [⟨it.id, if qc > 0 then "adjust" else "reduce", |qc|, none,
          pyOrStr n ("Manual adjustment: " ++ pySignedInt qc)⟩]) := by
  refine ⟨?_, ?_, ?_⟩
  · intro db sku wc qc n hw
    simp only [adjust_inventory]
    rw [hw]
  · intro db sku wc qc n w hw hit
    simp only [adjust_inventory]
    rw [hw]
    dsimp only
    rw [hit]
  · intro db sku wc qc n w it hw hit
    simp only [adjust_inventory]
    rw [hw]
    dsimp only
    rw [hit]
    dsimp only
    rw [clamp_eq_max]
    exact ⟨rfl, rfl, rfl, rfl⟩

/-- An inventory state with warehouse "WH1" holding 5 units of SKU "A". -/
def dbWarehoused : InvDB :=
  { warehouses := [⟨1, "WH1"⟩], items := [⟨1, 1, "A", 5, 0⟩], txns := [] }

/-- Witness: `adjust_inventory_correct` at concrete states — a missing
warehouse, a missing item, and a negative adjustment of 10 against a
quantity of 5 that clamps the result at 0 and records 10 in the
transaction. -/
theorem adjust_inventory_correct_witness :
    adjust_inventory dbWarehoused "A" "NOPE" 3 none = (false, dbWarehoused) ∧
    adjust_inventory dbWarehoused "B" "WH1" 3 none = (false, dbWarehoused) ∧
    (adjust_inventory dbWarehoused "A" "WH1" (-10) (some "Stock correction")).1 = true ∧
    (adjust_inventory dbWarehoused "A" "WH1" (-10) (some "Stock correction")).2.items =
      updateItemById dbWarehoused.items 1 (fun x => { x with quantity := max (5 + -10) 0 }) ∧
    (adjust_inventory dbWarehoused "A" "WH1" (-10) (some "Stock correction")).2.txns =
      dbWarehoused.txns ++ [⟨1, "reduce", 10, none, "Stock correction"⟩] := by
  have h3 := adjust_inventory_correct.2.2 dbWarehoused "A" "WH1" (-10) (some "Stock correction")
    ⟨1, "WH1"⟩ ⟨1, 1, "A", 5, 0⟩ (by decide) (by decide)
  refine ⟨adjust_inventory_correct.1 dbWarehoused "A" "NOPE" 3 none (by decide),
    adjust_inventory_correct.2.1 dbWarehoused "B" "WH1" 3 none ⟨1, "WH1"⟩
      (by decide) (by decide),
    h3.1, h3.2.2.1, ?_⟩
  rw [h3.2.2.2]
  rfl

/-! ## Tracking service
(`tracking-service/app/messaging/consumer.py` `process_order_created`,
`tracking-service/app/services/tracking_service.py`)

`generate_tracking_number` stamps `"TRK-" + utcnow` — the current time is
passed in explicitly.  `published` records the payloads of the
`shipment.created` events emitted by `publish_shipment_created`. -/

structure ShipmentR where
  tracking_number : String
  order_number : String
  carrier : String
  current_location : String
  status : String
deriving DecidableEq, Repr

structure TrackDB where
  shipments : List ShipmentR
  published : List ShipmentR
deriving DecidableEq, Repr

/-- `generate_tracking_number()`: `f"TRK-{timestamp}"` with the
second-resolution UTC timestamp passed in. -/
def generate_tracking_number (now : String) : String :=
  "TRK-" ++ now

/-- `get_shipment_by_order_number`: first shipment row with the order
number. -/
def get_shipment_by_order_number (shipments : List ShipmentR) (order_number : String) :
    Option ShipmentR :=
  shipments.find? fun s => s.order_number == order_number

/-- The fields `process_order_created` reads from the `order.created`
payload. -/
structure OrderMsg where
  order_number : Option String
  origin_address : Option String
deriving DecidableEq, Repr

/-- `create_shipment(db, shipment_data)`: generate a tracking number,
persist a new `"in_transit"` shipment row, return it. -/
def create_shipment (db : TrackDB) (order_number carrier current_location : String)
    (now : String) : ShipmentR × TrackDB :=
  let shipment : ShipmentR :=
    { tracking_number := generate_tracking_number now
      order_number := order_number
      carrier := carrier
      current_location := current_location
      status := "in_transit" }
  (shipment, { db with shipments := db.shipments ++ [shipment] })

/-- `OrderEventConsumer.process_order_created`: bail out on a falsy order
number; skip (log and return) when a shipment already exists for the
order number; otherwise create the shipment with the default carrier and
the order's origin address (falling back to `"Warehouse"`), then publish
`shipment.created` with the new shipment's fields. -/
def process_order_created (db : TrackDB) (msg : OrderMsg) (now : String) : TrackDB :=
  match msg.order_number with
  | none => db
  | some onum =>
    if onum = "" then db
    else
      match get_shipment_by_order_number db.shipments onum with
      | some _ => db
      | none =>
        let created := create_shipment db onum "Standard Carrier"
          ((msg.origin_address).getD "Warehouse") now
        { created.2 with published := created.2.published ++ [created.1] }

/-- `find?` skips a block with no hit. -/
theorem find?_append_none {α : Type} (p : α → Bool) (l₁ l₂ : List α)
    (h : l₁.find? p = none) : (l₁ ++ l₂).find? p = l₂.find? p := by
  induction l₁ with
  | nil => rfl
  | cons a l ih =>
      cases hpa : p a with
      | true =>
          rw [List.find?_cons_of_pos _ hpa] at h
          cases h
      | false =>
          have hpa' : ¬p a = true := by simp [hpa]
          rw [List.find?_cons_of_neg _ hpa'] at h
          rw [List.cons_append, List.find?_cons_of_neg _ hpa']
          exact ih h

/-- The fresh-order branch of `process_order_created` in closed form. -/
theorem process_order_created_new (db : TrackDB) (onum : String) (addr : Option String)
    (t : String) (h : onum ≠ "")
    (hfind : get_shipment_by_order_number db.shipments onum = none) :
    process_order_created db { order_number := some onum, origin_address := addr } t =
      { shipments := db.shipments ++
          [(create_shipment db onum "Standard Carrier" (addr.getD "Warehouse") t).1]
        published := db.published ++
          [(create_shipment db onum "Standard Carrier" (addr.getD "Warehouse") t).1] } := by
  simp only [process_order_created]
  rw [if_neg h, hfind]
  rfl

/-- Applying `process_order_created` twice with the same message leaves
the state of the first application unchanged: the second invocation finds
the shipment and returns. -/
theorem process_order_created_idem (db : TrackDB) (msg : OrderMsg) (t1 t2 : String) :
    process_order_created (process_order_created db msg t1) msg t2 =
      process_order_created db msg t1 := by
  obtain ⟨onum?, addr⟩ := msg
  cases onum? with
  | none => rfl
  | some onum =>
      by_cases hempty : onum = ""
      · subst hempty
        rfl
      · cases hfind : get_shipment_by_order_number db.shipments onum with
        | some s =>
            simp only [process_order_created]
            rw [if_neg hempty, hfind, if_neg hempty, hfind]
        | none =>
            rw [process_order_created_new db onum addr t1 hempty hfind]
            simp only [process_order_created]
            rw [if_neg hempty]
            have hsome : get_shipment_by_order_number
                (db.shipments ++
                  [(create_shipment db onum "Standard Carrier" (addr.getD "Warehouse") t1).1])
                onum =
                some (create_shipment db onum "Standard Carrier" (addr.getD "Warehouse") t1).1 := by
              unfold get_shipment_by_order_number at hfind ⊢
              rw [find?_append_none _ _ _ hfind]
              simp [create_shipment]
            rw [hsome]

/-- C7: the `order.created` auto-create-shipment handler is idempotent in
the shipment store — running it twice with the same message leaves the
state of the first run unchanged (the second run finds the existing
shipment, logs and returns without creating or publishing), and starting
from a state with no shipment for the order number, two runs leave
exactly one shipment record for it. -/
theorem auto_create_shipment_idempotent :
    (∀ db msg t1 t2,
      process_order_created (process_order_created db msg t1) msg t2 =
        process_order_created db msg t1) ∧
    (∀ db onum addr t1 t2, onum ≠ "" →
      get_shipment_by_order_number db.shipments onum = none →
      ((process_order_created (process_order_created db
            { order_number := some onum, origin_address := addr } t1)
          { order_number := some onum, origin_address := addr } t2).shipments.countP
        fun s => s.order_number == onum) = 1) := by
  refine ⟨process_order_created_idem, ?_⟩
  intro db onum addr t1 t2 h hfind
  rw [process_order_created_idem, process_order_created_new db onum addr t1 h hfind]
  have h0 : db.shipments.countP (fun s => s.order_number == onum) = 0 := by
    rw [List.countP_eq_zero]
    intro a ha
    unfold get_shipment_by_order_number at hfind
    have := List.find?_eq_none.mp hfind a ha
    simpa using this
  rw [List.countP_append, h0]
  simp [create_shipment, List.countP, List.countP.go]

/-- Witness: two runs of the handler against an empty store leave exactly
one shipment for order "ORD-1". -/
theorem auto_create_shipment_idempotent_witness :
    ((process_order_created (process_order_created (TrackDB.mk [] [])
          { order_number := some "ORD-1", origin_address := some "X" } "T1")
        { order_number := some "ORD-1", origin_address := some "X" } "T2").shipments.countP
      fun s => s.order_number == "ORD-1") = 1 :=
  auto_create_shipment_idempotent.2 (TrackDB.mk [] []) "ORD-1" (some "X") "T1" "T2"
    (by decide) rfl

/-! ## Notification service
(`notification-service/app/services/notification_service.py`)

Event payload values are JSON values; Python truthiness (`None`, `False`,
`0`, `""`, `[]` and the empty dict are falsy) decides the
`customer_email or recipient` selection and the `if not recipient`
guard. -/

/-- Python truthiness for a JSON value. -/
def pyTruthy : JValue → Bool
  | JValue.null => false
  | JValue.bool b => b
  | JValue.num n => !(n == 0)
  | JValue.str s => !(s == "")
  | JValue.arr elems => !elems.isEmpty
  | JValue.obj fields => !fields.isEmpty

/-- Python `str(value)` for the scalar JSON values that reach template
rendering in the catalogued events (container renderings abbreviated; no
result below depends on them). -/
def pyStrOf : JValue → String
  | JValue.null => "None"
  | JValue.bool b => if b then "True" else "False"
  | JValue.num n => toString n
  | JValue.str s => s
  | JValue.arr _ => "<list>"
  | JValue.obj _ => "<dict>"

/-- Python `a or b` on two optional values: a falsy (or absent) `a` falls
through to `b`. -/
def pyOrOpt (a b : Option JValue) : Option JValue :=
  match a with
  | some v => if pyTruthy v then some v else b
  | none => b

structure NotificationTemplate where
  template_name : String
  subject_template : String
  body_template : String
  channel : String
deriving DecidableEq, Repr

/-- A persisted notification row; the simulated transport always
succeeds, so a created row ends in status "sent". -/
structure NotificationR where
  notification_type : String
  recipient : JValue
  subject : String
  message : String
  channel : String
  order_number : Option JValue
  tracking_number : Option JValue
  status : String

structure NotifDB where
  templates : List NotificationTemplate
  notifications : List NotificationR

/-- The `template_mapping` dictionary of `create_from_event`. -/
def template_mapping : List (String × String) :=
  [("order.created", "order_confirmation"),
   ("order.status_changed", "order_status_update"),
   ("shipment.created", "shipment_created"),
   ("shipment.updated", "shipment_tracking_update"),
   ("inventory.low_stock", "inventory_low_stock_alert")]

/-- `template_mapping.get(event_type)`. -/
def mappingGet (event_type : String) : Option String :=
  (template_mapping.find? fun kv => kv.1 == event_type).map fun kv => kv.2

/-- `get_template_by_name`: first template row with the name. -/
def get_template_by_name (templates : List NotificationTemplate) (template_name : String) :
    Option NotificationTemplate :=
  templates.find? fun t => t.template_name == template_name

/-- Python `event_data.get(k, default)`. -/
def egetD (event_data : PyDict) (k : String) (default : JValue) : JValue :=
  (dictLookup event_data k).getD default

/-- `_prepare_template_data`: the common fields plus the per-event-type
field set. -/
def prepare_template_data (event_type : String) (event_data : PyDict) :
    List (String × JValue) :=
  let data := [("customer_name", egetD event_data "customer_name" (JValue.str "Customer")),
               ("customer_email", egetD event_data "customer_email" (JValue.str "")),
               ("order_number", egetD event_data "order_number" (JValue.str "N/A")),
               ("tracking_number", egetD event_data "tracking_number" (JValue.str "N/A"))]
  if event_type = "order.created" then
    data ++ [("origin_address", egetD event_data "origin_address" (JValue.str "")),
             ("destination_address", egetD event_data "destination_address" (JValue.str ""))]
  else if event_type = "order.status_changed" then
    data ++ [("old_status", egetD event_data "old_status" (JValue.str "")),
             ("new_status", egetD event_data "new_status" (JValue.str ""))]
  else if event_type = "shipment.created" ∨ event_type = "shipment.updated" then
    data ++ [("carrier", egetD event_data "carrier" (JValue.str "")),
             ("current_location", egetD event_data "current_location" (JValue.str "")),
             ("estimated_delivery", egetD event_data "estimated_delivery" (JValue.str ""))]
  else if event_type = "inventory.low_stock" then
    data ++ [("sku", egetD event_data "sku" (JValue.str "")),
             ("product_name", egetD event_data "product_name" (JValue.str "")),
             ("current_quantity", egetD event_data "current_quantity" (JValue.num 0)),
             ("threshold", egetD event_data "threshold" (JValue.num 0))]
  else data

/-- `render_template`: replace every `\x7b\x7bkey\x7d\x7d` placeholder in
subject and body with `str(value)`, for each data item in order. -/
def render_template (template : NotificationTemplate)
    (data : List (String × JValue)) : String × String :=
  data.foldl (fun sb kv =>
    let placeholder := "\x7b\x7b" ++ kv.1 ++ "\x7d\x7d"
    (sb.1.replace placeholder (pyStrOf kv.2), sb.2.replace placeholder (pyStrOf kv.2)))
    (template.subject_template, template.body_template)

/-- `send_notification`: persist the row as "pending" and immediately
mark it "sent" (the simulated send always succeeds). -/
def send_notification (db : NotifDB) (n : NotificationR) : NotificationR × NotifDB :=
  let sent := { n with status := "sent" }
  (sent, { db with notifications := db.notifications ++ [sent] })

/-- `create_from_event(db, event_type, event_data)`: map the event type
to a template name (abort on a miss), fetch the template (abort on a
miss), render it, pick the recipient as `event_data.get("customer_email")
or event_data.get("recipient")` (abort when that is falsy), then persist
and send the notification. -/
def create_from_event (db : NotifDB) (event_type : String) (event_data : PyDict) :
    Option NotificationR × NotifDB :=
  match mappingGet event_type with
  | none => (none, db)
  | some template_name =>
    match get_template_by_name db.templates template_name with
    | none => (none, db)
    | some template =>
      let template_data := prepare_template_data event_type event_data
      let rendered := render_template template template_data
      match pyOrOpt (dictLookup event_data "customer_email")
          (dictLookup event_data "recipient") with
      | none => (none, db)
      | some recipient =>
        if pyTruthy recipient = false then (none, db)
        else
          let n : NotificationR :=
            { notification_type := event_type
              recipient := recipient
              subject := rendered.1
              message := rendered.2
              channel := template.channel
              order_number := dictLookup event_data "order_number"
              tracking_number := dictLookup event_data "tracking_number"
              status := "pending" }
          let res := send_notification db n
          (some res.1, res.2)

/-- A seeded "order_confirmation" template row. -/
def orderConfirmationTemplate : NotificationTemplate :=
  { template_name := "order_confirmation"
    subject_template := "Order Confirmation"
    body_template := "Thank you for your order"
    channel := "email" }

/-- A notification store holding the order-confirmation template and no
notifications. -/
def notifStore : NotifDB :=
  { templates := [orderConfirmationTemplate], notifications := [] }

/-- An event payload in which `customer_email` is present but empty. -/
def emptyEmailEvent : PyDict :=
  [("customer_email", JValue.str "")]

/-- C9 counterexample: an `order.created` event whose `customer_email`
field is present (with value `""`) and whose template exists still
persists no notification — the code selects the recipient by Python
truthiness (`customer_email or recipient`), not by presence, so the
present-but-empty field aborts the operation. -/
theorem notification_recipient_counterexample :
    (dictLookup emptyEmailEvent "customer_email").isSome = true ∧
    (get_template_by_name notifStore.templates "order_confirmation").isSome = true ∧
    (create_from_event notifStore "order.created" emptyEmailEvent).1 = none ∧
    ((create_from_event notifStore "order.created" emptyEmailEvent).2).notifications.length
      = 0 :=
  ⟨rfl, rfl, rfl, rfl⟩

/-- C9 (amended): when the routing key has no template mapping, the named
template is missing, or neither `customer_email` nor `recipient` holds a
truthy (nonempty) value, `create_from_event` returns `None` and persists
nothing, all without raising; when a template exists and a truthy
recipient is found, the truthy `customer_email` value is preferred and
the falsy-or-absent `customer_email` falls back to the `recipient`
field, and exactly one notification is persisted with that recipient. -/
theorem create_from_event_correct :
    (∀ db et ed, mappingGet et = none → create_from_event db et ed = (none, db)) ∧
    (∀ db et ed tn, mappingGet et = some tn →
      get_template_by_name db.templates tn = none →
      create_from_event db et ed = (none, db)) ∧
    (∀ db et ed tn tmpl, mappingGet et = some tn →
      get_template_by_name db.templates tn = some tmpl →
      pyOrOpt (dictLookup ed "customer_email") (dictLookup ed "recipient") = none →
      create_from_event db et ed = (none, db)) ∧
    (∀ db et ed tn tmpl r, mappingGet et = some tn →
      get_template_by_name db.templates tn = some tmpl →
      pyOrOpt (dictLookup ed "customer_email") (dictLookup ed "recipient") = some r →
      pyTruthy r = false →
      create_from_event db et ed = (none, db)) ∧
    (∀ db et ed tn tmpl r, mappingGet et = some tn →
      get_template_by_name db.templates tn = some tmpl →
      pyOrOpt (dictLookup ed "customer_email") (dictLookup ed "recipient") = some r →
      pyTruthy r = true →
      ((create_from_event db et ed).1.map fun n => n.recipient) = some r ∧
      ((create_from_event db et ed).2).notifications.length =
        db.notifications.length + 1) ∧
    (∀ ed v, dictLookup ed "customer_email" = some v → pyTruthy v = true →
      pyOrOpt (dictLookup ed "customer_email") (dictLookup ed "recipient") = some v) ∧
    (∀ ed, (∀ v, dictLookup ed "customer_email" = some v → pyTruthy v = false) →
      pyOrOpt (dictLookup ed "customer_email") (dictLookup ed "recipient") =
        dictLookup ed "recipient") := by
  refine ⟨?_, ?_, ?_, ?_, ?_, ?_, ?_⟩
  · intro db et ed h1
    simp only [create_from_event]
    rw [h1]
  · intro db et ed tn h1 h2
    simp only [create_from_event]
    rw [h1]
    dsimp only
    rw [h2]
  · intro db et ed tn tmpl h1 h2 h3
    simp only [create_from_event]
    rw [h1]
    dsimp only
    rw [h2]
    dsimp only
    rw [h3]
  · intro db et ed tn tmpl r h1 h2 h3 h4
    simp only [create_from_event]
    rw [h1]
    dsimp only
    rw [h2]
    dsimp only
    rw [h3]
    dsimp only
    rw [if_pos h4]
  · intro db et ed tn tmpl r h1 h2 h3 h4
    simp only [create_from_event]
    rw [h1]
    dsimp only
    rw [h2]
    dsimp only
    rw [h3]
    dsimp only
    rw [if_neg (by simp [h4])]
    exact ⟨rfl, by simp [send_notification]⟩
  · intro ed v hv ht
    simp only [pyOrOpt]
    rw [hv]
    dsimp only
    rw [if_pos ht]
  · intro ed hall
    cases hv : dictLookup ed "customer_email" with
    | none => simp only [pyOrOpt, hv]
    | some v =>
        simp only [pyOrOpt, hv]
        rw [if_neg (by simp [hall v hv])]

/-- An event payload with a truthy `customer_email`. -/
def goodEmailEvent : PyDict :=
  [("customer_email", JValue.str "a@b.com"), ("order_number", JValue.str "ORD-1")]

/-- An event payload whose only recipient information is an empty
`recipient` field. -/
def falsyRecipientEvent : PyDict :=
  [("recipient", JValue.str "")]

/-- Witness: `create_from_event_correct` at concrete inputs — an unmapped
event type, a missing template row, an absent recipient, a falsy
recipient, and a successful creation for a truthy `customer_email`. -/
theorem create_from_event_correct_witness :
    create_from_event notifStore "order.deleted" goodEmailEvent = (none, notifStore) ∧
    create_from_event (NotifDB.mk [] []) "order.created" goodEmailEvent =
      (none, NotifDB.mk [] []) ∧
    create_from_event notifStore "order.created" emptyEmailEvent = (none, notifStore) ∧
    create_from_event notifStore "order.created" falsyRecipientEvent = (none, notifStore) ∧
    ((create_from_event notifStore "order.created" goodEmailEvent).1.map
      fun n => n.recipient) = some (JValue.str "a@b.com") ∧
    ((create_from_event notifStore "order.created" goodEmailEvent).2).notifications.length =
      notifStore.notifications.length + 1 ∧
    pyOrOpt (dictLookup goodEmailEvent "customer_email")
      (dictLookup goodEmailEvent "recipient") = some (JValue.str "a@b.com") ∧
    pyOrOpt (dictLookup falsyRecipientEvent "customer_email")
      (dictLookup falsyRecipientEvent "recipient") =
      dictLookup falsyRecipientEvent "recipient" := by
  have h5 := create_from_event_correct.2.2.2.2.1 notifStore "order.created" goodEmailEvent
    "order_confirmation" orderConfirmationTemplate (JValue.str "a@b.com") rfl rfl rfl rfl
  refine ⟨create_from_event_correct.1 notifStore "order.deleted" goodEmailEvent rfl,
    create_from_event_correct.2.1 (NotifDB.mk [] []) "order.created" goodEmailEvent
      "order_confirmation" rfl rfl,
    create_from_event_correct.2.2.1 notifStore "order.created" emptyEmailEvent
      "order_confirmation" orderConfirmationTemplate rfl rfl rfl,
    create_from_event_correct.2.2.2.1 notifStore "order.created" falsyRecipientEvent
      "order_confirmation" orderConfirmationTemplate (JValue.str "") rfl rfl rfl rfl,
    h5.1, h5.2,
    create_from_event_correct.2.2.2.2.2.1 goodEmailEvent (JValue.str "a@b.com") rfl rfl,
    create_from_event_correct.2.2.2.2.2.2 falsyRecipientEvent ?_⟩
  intro v hv
  have hv' : (none : Option JValue) = some v := hv
  cases hv'

/-- Witness: the router equivalence of `matches_pattern_correct` at a
concrete key and pattern. -/
theorem matches_pattern_correct_witness :
    matches_pattern "shipment.updated" "shipment.*" = true ↔
      matchesSpec "shipment.updated" "shipment.*" :=
  matches_pattern_correct.1 "shipment.updated" "shipment.*"

/-- Witness: `decode_failure_dropped` at a concrete transport key and
handler set. -/
theorem decode_failure_dropped_witness :
    notifProcessMessage (Except.error PyExc.jsonDecodeError) "order.created"
        (fun _ _ => Except.ok ()) =
      { ack := Ack.acked, logs := [LogEvent.decodeFailed], handlerRun := none } ∧
    sharedProcessMessage (Except.error PyExc.jsonDecodeError)
        [("order.created", HandlerBehavior.succeeds)] =
      { ack := Ack.acked, logs := [LogEvent.processingFailed], handlerRun := none } :=
  ⟨decode_failure_dropped.1 "order.created" (fun _ _ => Except.ok ()),
    decode_failure_dropped.2 [("order.created", HandlerBehavior.succeeds)]⟩

/-- Witness: `publisher_connection_guard` at concrete arguments. -/
theorem publisher_connection_guard_witness :
    MessagePublisher.publish none "order.created" samplePayload "T0" =
      Except.error PublishError.notConnected ∧
    MessagePublisher.publish (some "logistics.events") "order.created" samplePayload "T0" =
      Except.ok (encodeEnvelope "order.created" samplePayload "T0") ∧
    OrderEventPublisher.publish none "order.created" samplePayload "T0" = Except.ok none :=
  ⟨publisher_connection_guard.1 "order.created" samplePayload "T0",
    publisher_connection_guard.2.1 "logistics.events" "order.created" samplePayload "T0",
    publisher_connection_guard.2.2.1 "order.created" samplePayload "T0"⟩
